import Mathlib

/-
Shallow embedding of the question-answering client in
src/hb_cs_genie/src/App.js.

The file contains two React `App` components separated by a document
separator: a first variant (lines 15-122, no history log) and a second
variant (lines 138-386, with a question/answer history and a
useEffect-driven poll loop).  Each variant's session state is a record of
its useState hooks; JavaScript `null` (and `undefined`) for the string
fields is `Option.none`, a JavaScript string `s` is `some s`, and the
numeric backend id is `Option Nat` (`null` initially).  The network is
modelled by response values fed to the step functions: a poll cycle's
outcome is either a transport failure (network error, non-ok HTTP status
or body-parse failure, all caught by the surrounding try/catch) or a
parsed JSON body with a `status` string and an `answer` string.  A step
function returns the updated state together with a description of the
scheduling side effect (stop polling, or `setTimeout` after a delay).
-/

/-- JavaScript `String.prototype.trim` as used by `question.trim()`:
removes leading and trailing whitespace characters. -/
def jsTrim (s : String) : String :=
  ⟨((s.data.dropWhile Char.isWhitespace).reverse.dropWhile
      Char.isWhitespace).reverse⟩

/-- Outcome of one poll fetch as seen by the `try`/`switch` in
`pollForAnswer`: a caught transport-level failure, or a parsed body
carrying `data.status` and `data.answer`. -/
inductive PollResponse where
  | transportFailure : PollResponse
  | body (status : String) (answer : String) : PollResponse
deriving DecidableEq, Repr

/-- Outcome of the submit fetch in `handleSubmit`: a caught
transport-level failure, or a parsed acknowledgment body carrying
`data.id`. -/
inductive SubmitResponse where
  | transportFailure : SubmitResponse
  | okBody (id : Nat) : SubmitResponse
deriving DecidableEq, Repr

/-- Scheduling side effect of one poll cycle: either no further cycle is
issued, or `setTimeout` schedules exactly one re-invocation after the
given delay in milliseconds. -/
inductive PollAction where
  | stop : PollAction
  | scheduleAfter (ms : Nat) : PollAction
deriving DecidableEq, Repr

namespace SecondApp

/-- The useState hooks of the second `App` variant (App.js lines
139-146): `question` (input buffer), `currentQuestion` (text retained at
acceptance), `id`, `status`, `answer`, `error`, and `qaHistory` as a list
of (question, answer) pairs, newest first. -/
structure AppState where
  question : String
  currentQuestion : String
  id : Option Nat
  status : String
  answer : Option String
  error : Option String
  qaHistory : List (String × String)
deriving DecidableEq, Repr

/-- Initial state from the useState initializers (App.js lines 139-146):
`question` and `currentQuestion` start `''`, `id` starts `null`, `status`
starts `'completed'`, `answer` and `error` start `''`, `qaHistory` starts
`[]`. -/
def initState : AppState :=
  { question := ""
    currentQuestion := ""
    id := none
    status := "completed"
    answer := some ""
    error := some ""
    qaHistory := [] }

/-- One cycle of `pollForAnswer` (App.js lines 151-184) applied to a poll
outcome: the `catch` branch sets the fetch-failure message and status
`'idle'`; the `switch` on `data.status` handles `'completed'` (store the
answer, status `'answered'`, prepend `(currentQuestion, answer)` to the
history), `'in-progress'` (`setTimeout(.., 1000)`, state untouched),
`'error'` and the `default` branch (set a message, status `'idle'`). -/
def pollForAnswerStep (s : AppState) (r : PollResponse) :
    AppState × PollAction :=
  match r with
  | .transportFailure =>
      ({ s with error := some "Failed to fetch answer. Please try again."
                status := "idle" }, .stop)
  | .body st ans =>
      match st with
      | "completed" =>
          ({ s with answer := some ans
                    status := "answered"
                    qaHistory := (s.currentQuestion, ans) :: s.qaHistory },
           .stop)
      | "in-progress" => (s, .scheduleAfter 1000)
      | "error" =>
          ({ s with
               error := some "An error occurred while processing your question."
               status := "idle" }, .stop)
      | _ =>
          ({ s with error := some "Unexpected response from server"
                    status := "idle" }, .stop)

/-- Guard of the poll useEffect (App.js line 149): the effect body runs,
and starts `pollForAnswer(id)`, only when `status === 'in-progress'`. -/
def pollEffectFires (s : AppState) : Bool :=
  s.status == "in-progress"

/-- JavaScript `clearTimeout`: given the list of pending timer ids, a call
with a timer id removes that timer; a call with no argument (`undefined`)
is specified to do nothing. -/
def clearTimeoutJs (pending : List Nat) (arg : Option Nat) : List Nat :=
  match arg with
  | none => pending
  | some t => pending.filter (fun x => x ≠ t)

/-- The useEffect cleanup function (App.js lines 190-193): it calls
`clearTimeout()` with no argument. -/
def effectCleanup (pending : List Nat) : List Nat :=
  clearTimeoutJs pending none

/-- The guard of `handleSubmit` (App.js line 198): the call returns
immediately when the trimmed question is empty or `status ===
'in-progress'`. -/
def submitRejected (s : AppState) : Prop :=
  jsTrim s.question = "" ∨ s.status = "in-progress"

instance (s : AppState) : Decidable (submitRejected s) := by
  unfold submitRejected; infer_instance

/-- The synchronous acceptance phase of `handleSubmit` (App.js lines
200-204), run before the fetch: retain the submitted text in
`currentQuestion`, clear the input buffer, set status `'submitting'`,
clear `error` and `answer` to `null`. -/
def acceptSubmit (s : AppState) : AppState :=
  { s with currentQuestion := s.question
           question := ""
           status := "submitting"
           error := none
           answer := none }

/-- Resolution of the submit fetch (App.js lines 206-220): on a parsed
acknowledgment, store `data.id` and set status `'in-progress'`; on a
caught transport failure, set the submit-failure message and status
`'idle'`. -/
def submitResolve (s : AppState) (r : SubmitResponse) : AppState :=
  match r with
  | .okBody i => { s with id := some i, status := "in-progress" }
  | .transportFailure =>
      { s with error := some "Failed to submit question. Please try again."
               status := "idle" }

/-- Whole `handleSubmit` call (App.js lines 196-221) given the submit
fetch's outcome.  Returns the final state together with the `query_text`
of the POST body when a request was sent (`none` when the guard rejected
and no request was issued).  The body is built from the handler closure's
`question` value, i.e. the text as it stood at the call, unaffected by
the `setQuestion('')` that precedes the fetch. -/
def handleSubmit (s : AppState) (r : SubmitResponse) :
    AppState × Option String :=
  if submitRejected s then (s, none)
  else (submitResolve (acceptSubmit s) r, some s.question)

/-- Typing in the question TextInput (App.js line 269): its onChange
handler replaces the input buffer with the typed text. -/
def setQuestionInput (s : AppState) (t : String) : AppState :=
  { s with question := t }

end SecondApp

namespace FirstApp

/-- The useState hooks of the first `App` variant (App.js lines 16-20):
`question`, `id`, `status`, `answer`, `error`.  This variant has no
`currentQuestion` and no history. -/
structure AppState where
  question : String
  id : Option Nat
  status : String
  answer : Option String
  error : Option String
deriving DecidableEq, Repr

/-- Initial state from the useState initializers (App.js lines 16-20). -/
def initState : AppState :=
  { question := ""
    id := none
    status := "completed"
    answer := some ""
    error := some "" }

/-- One cycle of the first variant's `pollForAnswer` (App.js lines
23-52): identical response handling to the second variant except that the
`'completed'` branch records no history (there is none). -/
def pollForAnswerStep (s : AppState) (r : PollResponse) :
    AppState × PollAction :=
  match r with
  | .transportFailure =>
      ({ s with error := some "Failed to fetch answer. Please try again."
                status := "idle" }, .stop)
  | .body st ans =>
      match st with
      | "completed" =>
          ({ s with answer := some ans, status := "answered" }, .stop)
      | "in-progress" => (s, .scheduleAfter 1000)
      | "error" =>
          ({ s with
               error := some "An error occurred while processing your question."
               status := "idle" }, .stop)
      | _ =>
          ({ s with error := some "Unexpected response from server"
                    status := "idle" }, .stop)

/-- The guard of the first variant's `handleSubmit` (App.js line 56):
only the trimmed-empty check, with no status guard. -/
def submitRejected (s : AppState) : Prop :=
  jsTrim s.question = ""

instance (s : AppState) : Decidable (submitRejected s) := by
  unfold submitRejected; infer_instance

/-- Whole `handleSubmit` of the first variant (App.js lines 54-79): on
acceptance set status `'submitting'`, clear `error` and `answer`, send
the request; on a parsed acknowledgment store `data.id` and set status
`'polling'` (and call `pollForAnswer` directly); on a caught transport
failure set the submit-failure message and status `'idle'`.  The input
buffer is never cleared. -/
def handleSubmit (s : AppState) (r : SubmitResponse) :
    AppState × Option String :=
  if submitRejected s then (s, none)
  else
    let a : AppState :=
      { s with status := "submitting", error := none, answer := none }
    match r with
    | .okBody i => ({ a with id := some i, status := "polling" }, some s.question)
    | .transportFailure =>
        ({ a with error := some "Failed to submit question. Please try again."
                  status := "idle" }, some s.question)

end FirstApp

/-- A concrete in-flight polling state of the second variant: from the
fresh session, question `q` is submitted and acknowledged with handle 7,
so the status is `in-progress` and the input buffer is cleared — the
state in which poll responses actually arrive. -/
def pollingState : SecondApp.AppState :=
  (SecondApp.handleSubmit { SecondApp.initState with question := "q" }
     (.okBody 7)).1

/-- C1: on a poll response with status `completed` and answer text `ans`,
the client stores `ans` as the Answer, moves QueryState to `answered`,
prepends `(currentQuestion, ans)` to the history with prior entries
preserved, issues no further timeout, and the poll effect no longer
fires. -/
theorem c1_completed_poll (s : SecondApp.AppState) (ans : String) :
    SecondApp.pollForAnswerStep s (.body "completed" ans)
      = ({ s with answer := some ans
                  status := "answered"
                  qaHistory := (s.currentQuestion, ans) :: s.qaHistory },
         .stop)
    ∧ SecondApp.pollEffectFires
        (SecondApp.pollForAnswerStep s (.body "completed" ans)).1 = false :=
  ⟨rfl, rfl⟩

/-- C5: on a poll response with status `in-progress`, exactly one further
poll cycle is scheduled after a fixed 1000 ms delay and the session state
is unchanged. -/
theorem c5_in_progress_poll (s : SecondApp.AppState) (ans : String) :
    SecondApp.pollForAnswerStep s (.body "in-progress" ans)
      = (s, .scheduleAfter 1000) :=
  rfl

/-- C6: submitting a question that is empty after trimming is a no-op:
the state is returned unchanged and no request body is produced. -/
theorem c6_blank_question_noop (s : SecondApp.AppState) (r : SubmitResponse)
    (h : jsTrim s.question = "") :
    SecondApp.handleSubmit s r = (s, none) := by
  have hr : SecondApp.submitRejected s := Or.inl h
  unfold SecondApp.handleSubmit
  rw [if_pos hr]

/-- Witness for C6 at a whitespace-only question. -/
theorem c6_blank_question_noop_witness :
    SecondApp.handleSubmit
        { SecondApp.initState with question := "   " }
        SubmitResponse.transportFailure
      = ({ SecondApp.initState with question := "   " }, none) :=
  c6_blank_question_noop _ _ (by decide)

/-- C10: in the freshly initialized session, QueryState is `completed` —
not `idle`, `submitting` or `in-progress` — Answer, the input buffer and
ErrorMessage are empty strings, RequestHandle is null, History is empty,
and a first submission (after typing a non-blank question) passes the
duplicate-submission guard and sends its request. -/
theorem c10_initial_state :
    SecondApp.initState.status = "completed"
    ∧ SecondApp.initState.status ≠ "idle"
    ∧ SecondApp.initState.status ≠ "submitting"
    ∧ SecondApp.initState.status ≠ "in-progress"
    ∧ SecondApp.initState.answer = some ""
    ∧ SecondApp.initState.question = ""
    ∧ SecondApp.initState.currentQuestion = ""
    ∧ SecondApp.initState.id = none
    ∧ SecondApp.initState.error = some ""
    ∧ SecondApp.initState.qaHistory = []
    ∧ ¬ SecondApp.submitRejected (SecondApp.setQuestionInput SecondApp.initState "q")
    ∧ (SecondApp.handleSubmit (SecondApp.setQuestionInput SecondApp.initState "q")
         (.okBody 1)).2 = some "q" := by
  decide

/-- C2 counterexample: in a state with QueryState `submitting` and a
non-blank question, `handleSubmit` is not a no-op — the guard only checks
`in-progress`, so a request body is produced and the state changes. -/
theorem c2_counterexample :
    ({ SecondApp.initState with question := "q", status := "submitting"
       : SecondApp.AppState }).status = "submitting"
    ∧ (SecondApp.handleSubmit
         { SecondApp.initState with question := "q", status := "submitting" }
         (.okBody 1)).2 = some "q"
    ∧ (SecondApp.handleSubmit
         { SecondApp.initState with question := "q", status := "submitting" }
         (.okBody 1)).1
        ≠ { SecondApp.initState with question := "q", status := "submitting" } := by
  decide

/-- C2 amended: a submit call made while QueryState is `in-progress` is a
no-op — no request is sent and no component of the session state changes.
The guard does not check the `submitting` state. -/
theorem c2_amended_guard (s : SecondApp.AppState) (r : SubmitResponse)
    (h : s.status = "in-progress") :
    SecondApp.handleSubmit s r = (s, none) := by
  have hr : SecondApp.submitRejected s := Or.inr h
  unfold SecondApp.handleSubmit
  rw [if_pos hr]

/-- Witness for the amended C2 at a concrete in-progress state. -/
theorem c2_amended_guard_witness :
    SecondApp.handleSubmit
        { SecondApp.initState with question := "q", status := "in-progress" }
        SubmitResponse.transportFailure
      = ({ SecondApp.initState with question := "q", status := "in-progress" },
         none) :=
  c2_amended_guard _ _ rfl

/-- C3 counterexample: the very first accepted submission starts from
QueryState `completed`, not `idle`, so its transition sequence is
`completed → submitting → in-progress` — the claimed `idle → submitting →
in-progress` sequence does not occur. -/
theorem c3_counterexample :
    (SecondApp.setQuestionInput SecondApp.initState "q").status = "completed"
    ∧ (SecondApp.setQuestionInput SecondApp.initState "q").status ≠ "idle"
    ∧ (SecondApp.handleSubmit (SecondApp.setQuestionInput SecondApp.initState "q")
         (.okBody 7)).2 = some "q"
    ∧ (SecondApp.acceptSubmit
         (SecondApp.setQuestionInput SecondApp.initState "q")).status = "submitting"
    ∧ (SecondApp.handleSubmit (SecondApp.setQuestionInput SecondApp.initState "q")
         (.okBody 7)).1.status = "in-progress" := by
  decide

/-- C3 amended: for every accepted submission whose submit call succeeds
with a handle, QueryState moves from its prior value (not necessarily
`idle`; `completed` in a fresh session) to `submitting` and then to
`in-progress`, the returned handle is stored as the current
RequestHandle, and the poll effect fires for it. -/
theorem c3_amended_submit_success (s : SecondApp.AppState) (i : Nat)
    (h : ¬ SecondApp.submitRejected s) :
    (SecondApp.acceptSubmit s).status = "submitting"
    ∧ (SecondApp.handleSubmit s (.okBody i)).1
        = SecondApp.submitResolve (SecondApp.acceptSubmit s) (.okBody i)
    ∧ (SecondApp.handleSubmit s (.okBody i)).1.status = "in-progress"
    ∧ (SecondApp.handleSubmit s (.okBody i)).1.id = some i
    ∧ SecondApp.pollEffectFires (SecondApp.handleSubmit s (.okBody i)).1 = true := by
  unfold SecondApp.handleSubmit
  rw [if_neg h]
  exact ⟨rfl, rfl, rfl, rfl, rfl⟩

/-- Witness for the amended C3 at a concrete accepted submission. -/
theorem c3_amended_submit_success_witness :
    (SecondApp.acceptSubmit
        { SecondApp.initState with question := "q" }).status = "submitting"
    ∧ (SecondApp.handleSubmit { SecondApp.initState with question := "q" }
         (.okBody 7)).1
        = SecondApp.submitResolve
            (SecondApp.acceptSubmit { SecondApp.initState with question := "q" })
            (.okBody 7)
    ∧ (SecondApp.handleSubmit { SecondApp.initState with question := "q" }
         (.okBody 7)).1.status = "in-progress"
    ∧ (SecondApp.handleSubmit { SecondApp.initState with question := "q" }
         (.okBody 7)).1.id = some 7
    ∧ SecondApp.pollEffectFires
        (SecondApp.handleSubmit { SecondApp.initState with question := "q" }
          (.okBody 7)).1 = true :=
  c3_amended_submit_success _ 7 (by decide)

/-- C4: every non-validation error path — poll transport failure, backend
status `error`, an unrecognized poll status, and submit transport failure
— sets a generic ErrorMessage, returns QueryState to `idle`, stops
polling (no timeout scheduled and the poll effect no longer fires), and
leaves History unchanged.  The poll-error conclusions hold in every state
(in particular the in-flight ones with status `in-progress` and a cleared
buffer); the accepted-submit failure conclusion is scoped to submissions
the guard accepts, and the history of the submit path is unchanged
whether or not the guard accepts. -/
theorem c4_error_paths (s : SecondApp.AppState) (st ans : String)
    (hc : st ≠ "completed") (hp : st ≠ "in-progress") (he : st ≠ "error") :
    SecondApp.pollForAnswerStep s .transportFailure
      = ({ s with error := some "Failed to fetch answer. Please try again."
                  status := "idle" }, .stop)
    ∧ SecondApp.pollForAnswerStep s (.body "error" ans)
      = ({ s with
             error := some "An error occurred while processing your question."
             status := "idle" }, .stop)
    ∧ SecondApp.pollForAnswerStep s (.body st ans)
      = ({ s with error := some "Unexpected response from server"
                  status := "idle" }, .stop)
    ∧ (¬ SecondApp.submitRejected s →
        SecondApp.handleSubmit s .transportFailure
          = ({ SecondApp.acceptSubmit s with
                 error := some "Failed to submit question. Please try again."
                 status := "idle" }, some s.question))
    ∧ (SecondApp.handleSubmit s .transportFailure).1.qaHistory = s.qaHistory
    ∧ SecondApp.pollEffectFires { s with status := "idle" } = false := by
  refine ⟨rfl, rfl, ?_, ?_, ?_, rfl⟩
  · unfold SecondApp.pollForAnswerStep
    split
    · simp_all
    · split <;> simp_all
  · intro hg
    unfold SecondApp.handleSubmit
    rw [if_neg hg]
    exact rfl
  · unfold SecondApp.handleSubmit
    by_cases hg : SecondApp.submitRejected s
    · rw [if_pos hg]
    · rw [if_neg hg]
      exact rfl

/-- Witness for C4 at the concrete in-flight polling state (status
`in-progress`, cleared buffer) with the unrecognized status string
`pending`, and a second instantiation at a fresh accepted submission for
the submit-transport-failure conclusion. -/
theorem c4_error_paths_witness :
    SecondApp.pollForAnswerStep pollingState PollResponse.transportFailure
      = ({ pollingState with
             error := some "Failed to fetch answer. Please try again.",
             status := "idle" }, .stop)
    ∧ SecondApp.pollForAnswerStep pollingState (.body "error" "a")
      = ({ pollingState with
             error := some "An error occurred while processing your question.",
             status := "idle" }, .stop)
    ∧ SecondApp.pollForAnswerStep pollingState (.body "pending" "a")
      = ({ pollingState with
             error := some "Unexpected response from server",
             status := "idle" }, .stop)
    ∧ (SecondApp.handleSubmit pollingState
         SubmitResponse.transportFailure).1.qaHistory = pollingState.qaHistory
    ∧ SecondApp.pollEffectFires { pollingState with status := "idle" } = false
    ∧ SecondApp.handleSubmit { SecondApp.initState with question := "q" }
        SubmitResponse.transportFailure
      = ({ SecondApp.acceptSubmit { SecondApp.initState with question := "q" } with
             error := some "Failed to submit question. Please try again.",
             status := "idle" }, some "q") :=
  have h := c4_error_paths pollingState "pending" "a"
    (by decide) (by decide) (by decide)
  have h2 := c4_error_paths { SecondApp.initState with question := "q" }
    "pending" "a" (by decide) (by decide) (by decide)
  ⟨h.1, h.2.1, h.2.2.1, h.2.2.2.2.1, h.2.2.2.2.2, h2.2.2.2.1 (by decide)⟩

/-- C7: on acceptance of a submission, ErrorMessage and Answer are
cleared to null, the input buffer is cleared, and the submitted text is
retained in `currentQuestion`; the POST body's `query_text` is the text
as it stood at acceptance; and even after new text is typed while the
request is in flight, a completing poll records the originally submitted
text as the history entry's question. -/
theorem c7_acceptance_retention (s : SecondApp.AppState) (i : Nat)
    (t ans : String) (h : ¬ SecondApp.submitRejected s) :
    (SecondApp.acceptSubmit s).error = none
    ∧ (SecondApp.acceptSubmit s).answer = none
    ∧ (SecondApp.acceptSubmit s).question = ""
    ∧ (SecondApp.acceptSubmit s).currentQuestion = s.question
    ∧ (SecondApp.handleSubmit s (.okBody i)).2 = some s.question
    ∧ (SecondApp.pollForAnswerStep
         (SecondApp.setQuestionInput (SecondApp.handleSubmit s (.okBody i)).1 t)
         (.body "completed" ans)).1.qaHistory
        = (s.question, ans) :: s.qaHistory := by
  unfold SecondApp.handleSubmit
  rw [if_neg h]
  exact ⟨rfl, rfl, rfl, rfl, rfl, rfl⟩

/-- Witness for C7: question `"hours policy"` submitted, `"typed later"`
entered afterwards, answer `"See handbook."` completes. -/
theorem c7_acceptance_retention_witness :
    (SecondApp.acceptSubmit
        { SecondApp.initState with question := "hours policy" }).error = none
    ∧ (SecondApp.acceptSubmit
        { SecondApp.initState with question := "hours policy" }).answer = none
    ∧ (SecondApp.acceptSubmit
        { SecondApp.initState with question := "hours policy" }).question = ""
    ∧ (SecondApp.acceptSubmit
        { SecondApp.initState with question := "hours policy" }).currentQuestion
        = ({ SecondApp.initState with question := "hours policy" }
           : SecondApp.AppState).question
    ∧ (SecondApp.handleSubmit
        { SecondApp.initState with question := "hours policy" } (.okBody 7)).2
        = some (({ SecondApp.initState with question := "hours policy" }
                 : SecondApp.AppState).question)
    ∧ (SecondApp.pollForAnswerStep
         (SecondApp.setQuestionInput
           (SecondApp.handleSubmit
             { SecondApp.initState with question := "hours policy" }
             (.okBody 7)).1 "typed later")
         (.body "completed" "See handbook.")).1.qaHistory
        = (({ SecondApp.initState with question := "hours policy" }
            : SecondApp.AppState).question, "See handbook.")
          :: ({ SecondApp.initState with question := "hours policy" }
              : SecondApp.AppState).qaHistory :=
  c7_acceptance_retention { SecondApp.initState with question := "hours policy" }
    7 "typed later" "See handbook." (by decide)

/-- C8: the useEffect cleanup of the second variant calls `clearTimeout()`
with no timer id, which JavaScript specifies as a no-op — so a poll
timeout that is pending at teardown is never cancelled and still fires. -/
theorem c8_cleanup_cancels_nothing (pending : List Nat) :
    SecondApp.effectCleanup pending = pending :=
  rfl

/-- C9 counterexample: fed the same inputs (fresh session, question `q`
typed, submit succeeding with handle 1), the two variants diverge — the
first enters QueryState `polling` and keeps the input buffer, while the
second enters `in-progress` and clears it — so they do not produce the
same sequence of QueryState transitions. -/
theorem c9_counterexample :
    (FirstApp.handleSubmit { FirstApp.initState with question := "q" }
       (.okBody 1)).1.status = "polling"
    ∧ (SecondApp.handleSubmit { SecondApp.initState with question := "q" }
       (.okBody 1)).1.status = "in-progress"
    ∧ ("polling" : String) ≠ "in-progress"
    ∧ (FirstApp.handleSubmit { FirstApp.initState with question := "q" }
       (.okBody 1)).1.question = "q"
    ∧ (SecondApp.handleSubmit { SecondApp.initState with question := "q" }
       (.okBody 1)).1.question = "" := by
  decide

/-- Default branch of the first variant's poll switch: any status other
than the three recognized ones takes the `default` case. -/
theorem FirstApp.pollDefaultFirst (s : FirstApp.AppState) (st ans : String)
    (hc : st ≠ "completed") (hp : st ≠ "in-progress") (he : st ≠ "error") :
    FirstApp.pollForAnswerStep s (.body st ans)
      = ({ s with error := some "Unexpected response from server"
                  status := "idle" }, .stop) := by
  unfold FirstApp.pollForAnswerStep
  split
  · simp_all
  · split <;> simp_all

/-- Default branch of the second variant's poll switch: any status other
than the three recognized ones takes the `default` case. -/
theorem SecondApp.pollDefaultSecond (s : SecondApp.AppState) (st ans : String)
    (hc : st ≠ "completed") (hp : st ≠ "in-progress") (he : st ≠ "error") :
    SecondApp.pollForAnswerStep s (.body st ans)
      = ({ s with error := some "Unexpected response from server"
                  status := "idle" }, .stop) := by
  unfold SecondApp.pollForAnswerStep
  split
  · simp_all
  · split <;> simp_all

/-- C9 amended: the two variants agree on poll-response handling — from
states matching on status, answer and error, any poll outcome yields the
same new status, answer, error and the same scheduling action — but they
are not the same machine overall: after a successful submit the first
variant enters `polling` while the second enters `in-progress`, and the
first maintains no history, has no in-progress submission guard, and
keeps the input buffer. -/
theorem c9_amended_poll_agreement (s1 : FirstApp.AppState)
    (s2 : SecondApp.AppState) (r : PollResponse)
    (hs : s1.status = s2.status) (ha : s1.answer = s2.answer)
    (he : s1.error = s2.error) :
    (FirstApp.pollForAnswerStep s1 r).1.status
      = (SecondApp.pollForAnswerStep s2 r).1.status
    ∧ (FirstApp.pollForAnswerStep s1 r).1.answer
      = (SecondApp.pollForAnswerStep s2 r).1.answer
    ∧ (FirstApp.pollForAnswerStep s1 r).1.error
      = (SecondApp.pollForAnswerStep s2 r).1.error
    ∧ (FirstApp.pollForAnswerStep s1 r).2
      = (SecondApp.pollForAnswerStep s2 r).2 := by
  cases r with
  | transportFailure =>
      exact ⟨rfl, ha, rfl, rfl⟩
  | body st ans =>
      by_cases h1 : st = "completed"
      · subst h1
        exact ⟨rfl, rfl, he, rfl⟩
      by_cases h2 : st = "in-progress"
      · subst h2
        exact ⟨hs, ha, he, rfl⟩
      by_cases h3 : st = "error"
      · subst h3
        exact ⟨rfl, ha, rfl, rfl⟩
      rw [FirstApp.pollDefaultFirst s1 st ans h1 h2 h3,
          SecondApp.pollDefaultSecond s2 st ans h1 h2 h3]
      exact ⟨rfl, ha, rfl, rfl⟩

/-- Witness for the amended C9 at the two fresh initial states and an
in-progress poll response. -/
theorem c9_amended_poll_agreement_witness :
    (FirstApp.pollForAnswerStep FirstApp.initState (.body "in-progress" "a")).1.status
      = (SecondApp.pollForAnswerStep SecondApp.initState
          (.body "in-progress" "a")).1.status
    ∧ (FirstApp.pollForAnswerStep FirstApp.initState
        (.body "in-progress" "a")).1.answer
      = (SecondApp.pollForAnswerStep SecondApp.initState
          (.body "in-progress" "a")).1.answer
    ∧ (FirstApp.pollForAnswerStep FirstApp.initState
        (.body "in-progress" "a")).1.error
      = (SecondApp.pollForAnswerStep SecondApp.initState
          (.body "in-progress" "a")).1.error
    ∧ (FirstApp.pollForAnswerStep FirstApp.initState (.body "in-progress" "a")).2
      = (SecondApp.pollForAnswerStep SecondApp.initState
          (.body "in-progress" "a")).2 :=
  c9_amended_poll_agreement FirstApp.initState SecondApp.initState
    (.body "in-progress" "a") rfl rfl rfl
